import Mathlib

/-!
# Verification of the POS pricing/transaction/receipt domain model

A shallow embedding in Lean 4 of the core model of a small point-of-sale
application (files `models/config.py`, `models/transaction.py`,
`controllers/pos_controller.py`).  Monetary amounts are modelled as `ℚ`
(all amounts manipulated by the program are exact decimal fractions, on
which Python binary floating point is exact for the operations used here);
Python `int` is modelled as `ℤ`; fallible operations return `Except`;
the mutable objects are passed and returned explicitly.
-/

namespace POS

/-! ## Decimal strings

`parseDecimal` models Python `float(s)` on plain decimal literals
(optional sign, digits, optional fractional part; other shapes such as
exponents are rejected, which is conservative for the strings this
program stores).  `pyFloatStr` models Python `str` on a float holding an
exact decimal value.  `format2` models the format specifier `:.2f`
(round half to even at two fractional digits). -/

def digitsToNat (l : List Char) : ℕ :=
  l.foldl (fun a c => a * 10 + (c.toNat - Char.toNat '0')) 0

def parseUnsigned (l : List Char) : Option ℚ :=
  let ip := l.takeWhile Char.isDigit
  let rest := l.dropWhile Char.isDigit
  match rest with
  | [] => if ip = [] then none else some (digitsToNat ip)
  | '.' :: rest2 =>
    let fp := rest2.takeWhile Char.isDigit
    let rest3 := rest2.dropWhile Char.isDigit
    if rest3 = [] ∧ (ip ≠ [] ∨ fp ≠ []) then
      some ((digitsToNat ip : ℚ) + (digitsToNat fp : ℚ) / (10 : ℚ) ^ fp.length)
    else none
  | _ => none

def parseDecimal (s : String) : Option ℚ :=
  match s.data with
  | '-' :: rest => (parseUnsigned rest).map Neg.neg
  | '+' :: rest => parseUnsigned rest
  | l => parseUnsigned l

/-- Fractional digits of `q` (expected `0 ≤ q < 1`), at most `fuel` many. -/
def fracDigits : ℕ → ℚ → List Char
  | 0, _ => []
  | fuel + 1, q =>
    if q = 0 then []
    else
      let d : ℤ := ⌊q * 10⌋
      Char.ofNat (d.toNat + Char.toNat '0') :: fracDigits fuel (q * 10 - d)

/-- Nonnegative case of `pyFloatStr`. -/
def pyFloatStrNN (q : ℚ) : String :=
  let ip : ℕ := (⌊q⌋).toNat
  let fp : ℚ := q - ⌊q⌋
  if fp = 0 then toString ip ++ ".0"
  else toString ip ++ "." ++ String.mk (fracDigits 30 fp)

/-- Model of Python `str` on a float carrying the exact decimal value `q`. -/
def pyFloatStr (q : ℚ) : String :=
  if q < 0 then "-" ++ pyFloatStrNN (-q) else pyFloatStrNN q

def roundHalfEven (q : ℚ) : ℤ :=
  let f : ℤ := ⌊q⌋
  let r : ℚ := q - f
  if r < 1 / 2 then f
  else if 1 / 2 < r then f + 1
  else if f % 2 = 0 then f else f + 1

def pad2 (n : ℕ) : String :=
  if n < 10 then "0" ++ toString n else toString n

/-- Nonnegative case of `format2`. -/
def format2NN (q : ℚ) : String :=
  let n : ℕ := (roundHalfEven (q * 100)).toNat
  toString (n / 100) ++ "." ++ pad2 (n % 100)

/-- Model of the Python format `f"{q:.2f}"`. -/
def format2 (q : ℚ) : String :=
  if q < 0 then "-" ++ format2NN (-q) else format2NN q

/-! ## Timestamps

`datetime.now()` values are modelled as explicit broken-down timestamps;
the `strftime` patterns the program uses are modelled field by field. -/

structure DateTime where
  year : ℕ
  month : ℕ
  day : ℕ
  hour : ℕ
  minute : ℕ
  second : ℕ
deriving DecidableEq

/-- Model of `strftime("%m/%d/%Y")`. -/
def DateTime.fmtDate (d : DateTime) : String :=
  pad2 d.month ++ "/" ++ pad2 d.day ++ "/" ++ toString d.year

/-- Model of `strftime("%I:%M:%S %p")` (12-hour clock). -/
def DateTime.fmtTime12 (d : DateTime) : String :=
  let h12 : ℕ := if d.hour % 12 = 0 then 12 else d.hour % 12
  pad2 h12 ++ ":" ++ pad2 d.minute ++ ":" ++ pad2 d.second ++ " " ++
    (if d.hour < 12 then "AM" else "PM")

/-- Model of `strftime("%m-%d-%Y_%H-%M-%S")`. -/
def DateTime.fmtStamp (d : DateTime) : String :=
  pad2 d.month ++ "-" ++ pad2 d.day ++ "-" ++ toString d.year ++ "_" ++
    pad2 d.hour ++ "-" ++ pad2 d.minute ++ "-" ++ pad2 d.second

/-! ## `models/config.py` — `PriceConfig`

`configparser.ConfigParser` state is an ordered association of section
names to ordered associations of option names to raw strings.
`ConfigParser.read` merges a parsed file into the existing state
section by section, option by option.  `getfloat(section, option,
fallback)` returns the fallback only when the section or option is
missing; a present but unparseable value raises `ValueError`, modelled
as `Except.error ()`. -/

abbrev Section := List (String × String)

abbrev ConfigStore := List (String × Section)

def lookupKey (sec : Section) (k : String) : Option String :=
  (List.find? (fun p => p.1 = k) sec).map Prod.snd

def setKey (sec : Section) (k v : String) : Section :=
  if (List.find? (fun p => p.1 = k) sec).isSome then
    List.map (fun p => if p.1 = k then (k, v) else p) sec
  else sec ++ [(k, v)]

def storeGetSection (st : ConfigStore) (name : String) : Option Section :=
  (List.find? (fun p => p.1 = name) st).map Prod.snd

def storeLookup (st : ConfigStore) (name k : String) : Option String :=
  (storeGetSection st name).bind (fun sec => lookupKey sec k)

/-- Merge the options of a parsed file section into an existing section. -/
def overlaySection (oldSec newSec : Section) : Section :=
  newSec.foldl (fun acc p => setKey acc p.1 p.2) oldSec

/-- Merge one parsed file section into the store (`ConfigParser.read`
semantics: existing sections are updated option-wise, new sections are
appended). -/
def setSectionMerge (st : ConfigStore) (name : String) (newSec : Section) : ConfigStore :=
  if (List.find? (fun p => p.1 = name) st).isSome then
    List.map (fun p => if p.1 = name then (name, overlaySection p.2 newSec) else p) st
  else st ++ [(name, newSec)]

def overlayStore (st : ConfigStore) (file : ConfigStore) : ConfigStore :=
  file.foldl (fun acc p => setSectionMerge acc p.1 p.2) st

def toUpperStr (s : String) : String := String.mk (s.data.map Char.toUpper)
def toLowerStr (s : String) : String := String.mk (s.data.map Char.toLower)

/-- Model of `getfloat(section, option, fallback=fb)`. -/
def getfloat (st : ConfigStore) (sect opt : String) (fb : ℚ) : Except Unit ℚ :=
  match storeLookup st sect opt with
  | none => .ok fb
  | some v =>
    match parseDecimal v with
    | some q => .ok q
    | none => .error ()

structure PriceConfig where
  config : ConfigStore
deriving DecidableEq

/-- Source `PriceConfig.load_default_config` (Philippine Pesos defaults). -/
def load_default_config : ConfigStore :=
  [("PRINT", [("monochrome_price", "5.00"), ("colored_price", "8.00"),
              ("image_surcharge", "2.00")]),
   ("PHOTOCOPY", [("monochrome_price", "3.00"), ("colored_price", "5.00"),
                  ("image_surcharge", "2.00")]),
   ("SCAN", [("monochrome_price", "2.00"), ("colored_price", "4.00"),
             ("image_surcharge", "2.00")])]

/-- Source `PriceConfig.load_config`: overlay the persisted file, if it exists,
onto the current (default-seeded) state. -/
def load_config (st : ConfigStore) (file : Option ConfigStore) : ConfigStore :=
  match file with
  | none => st
  | some f => overlayStore st f

/-- Source `PriceConfig.__init__`: seed defaults, then overlay the file if present. -/
def PriceConfig.init (file : Option ConfigStore) : PriceConfig :=
  ⟨load_config load_default_config file⟩

def PriceConfig.get_monochrome_price (c : PriceConfig) (service : String) : Except Unit ℚ :=
  getfloat c.config (toUpperStr service) "monochrome_price" (1 / 10)

def PriceConfig.get_colored_price (c : PriceConfig) (service : String) : Except Unit ℚ :=
  getfloat c.config (toUpperStr service) "colored_price" (1 / 4)

def PriceConfig.get_image_surcharge (c : PriceConfig) (service : String) : Except Unit ℚ :=
  getfloat c.config (toUpperStr service) "image_surcharge" (1 / 20)

/-- Ensure the section exists, then set one option to `str(price)`. -/
def configSetField (st : ConfigStore) (sect k : String) (price : ℚ) : ConfigStore :=
  let st1 := if (List.find? (fun p => p.1 = sect) st).isSome then st
             else st ++ [(sect, [])]
  setSectionMerge st1 sect [(k, pyFloatStr price)]

def PriceConfig.set_monochrome_price (c : PriceConfig) (service : String) (price : ℚ) : PriceConfig :=
  ⟨configSetField c.config (toUpperStr service) "monochrome_price" price⟩

def PriceConfig.set_colored_price (c : PriceConfig) (service : String) (price : ℚ) : PriceConfig :=
  ⟨configSetField c.config (toUpperStr service) "colored_price" price⟩

def PriceConfig.set_image_surcharge (c : PriceConfig) (service : String) (price : ℚ) : PriceConfig :=
  ⟨configSetField c.config (toUpperStr service) "image_surcharge" price⟩

/-! ## `models/transaction.py` — `ServiceType`, `Transaction`, `Receipt` -/

inductive ServiceType where
  | PRINT
  | PHOTOCOPY
  | SCAN
deriving DecidableEq

def ServiceType.value : ServiceType → String
  | .PRINT => "Print"
  | .PHOTOCOPY => "Photocopy"
  | .SCAN => "Scan"

structure Transaction where
  service_type : ServiceType
  pages : ℤ
  is_colored : Bool
  has_images : Bool
  timestamp : DateTime
  subtotal : ℚ
deriving DecidableEq

/-- Source `Transaction.__init__` (subtotal starts at `0.0`). -/
def Transaction.new (service_type : ServiceType) (pages : ℤ)
    (is_colored has_images : Bool) (now : DateTime) : Transaction :=
  ⟨service_type, pages, is_colored, has_images, now, 0⟩

/-- Source `Transaction.calculate_subtotal(config)`: recomputes and stores the
subtotal; the `getfloat` calls may raise. -/
def Transaction.calculate_subtotal (t : Transaction) (config : PriceConfig) :
    Except Unit (Transaction × ℚ) := do
  let service_name := toLowerStr t.service_type.value
  let base_price ←
    if t.is_colored then config.get_colored_price service_name
    else config.get_monochrome_price service_name
  let sub1 : ℚ := base_price * t.pages
  let sub2 : ℚ ←
    if t.has_images then do
      let image_surcharge ← config.get_image_surcharge service_name
      pure (sub1 + image_surcharge * t.pages)
    else pure sub1
  pure ({ t with subtotal := sub2 }, sub2)

/-- Source `Transaction.to_string`. -/
def Transaction.to_string (t : Transaction) : String :=
  let color_str := if t.is_colored then "Colored" else "Monochrome"
  let images_str := if t.has_images then " (with images)" else ""
  t.service_type.value ++ " - " ++ toString t.pages ++ " pages - " ++
    color_str ++ images_str ++ ": ₱" ++ format2 t.subtotal

structure Receipt where
  transactions : List Transaction
  timestamp : DateTime
  total : ℚ
deriving DecidableEq

/-- Source `Receipt.__init__`. -/
def Receipt.new (now : DateTime) : Receipt := ⟨[], now, 0⟩

/-- Source `Receipt.calculate_total`: stores and returns the sum of subtotals. -/
def Receipt.calculate_total (r : Receipt) : Receipt × ℚ :=
  let tot : ℚ := (r.transactions.map Transaction.subtotal).sum
  ({ r with total := tot }, tot)

/-- Source `Receipt.add_transaction`: append, then recompute the total. -/
def Receipt.add_transaction (r : Receipt) (t : Transaction) : Receipt :=
  (Receipt.calculate_total { r with transactions := r.transactions ++ [t] }).1

/-- Source `Receipt.remove_transaction(index)`: silently does nothing when the
index is outside `[0, len)`; otherwise `pop(index)` and recompute. -/
def Receipt.remove_transaction (r : Receipt) (index : ℤ) : Receipt :=
  if 0 ≤ index ∧ index < (r.transactions.length : ℤ) then
    (Receipt.calculate_total
      { r with transactions := r.transactions.eraseIdx index.toNat }).1
  else r

/-- Source `Receipt.get_receipt_filename`. -/
def Receipt.get_receipt_filename (r : Receipt) : String :=
  "Receipt_" ++ r.timestamp.fmtStamp ++ ".txt"

def sep50 (c : Char) : String := String.mk (List.replicate 50 c)

/-- The list of lines built by `Receipt.generate_receipt_text` before the
final `"\n".join`. -/
def Receipt.receipt_text_list (r : Receipt) : List String :=
  [sep50 '=',
   "           PRINTING BUSINESS POS",
   sep50 '=',
   "",
   "Date: " ++ r.timestamp.fmtDate,
   "Time: " ++ r.timestamp.fmtTime12,
   "",
   sep50 '-',
   "TRANSACTION DETAILS:",
   sep50 '-'] ++
  (r.transactions.enum.map
    (fun p => toString (p.1 + 1) ++ ". " ++ p.2.to_string)) ++
  ["",
   sep50 '-',
   "TOTAL: ₱" ++ format2 r.total,
   sep50 '-',
   "",
   "Thank you for your business!",
   sep50 '=']

/-- Source `Receipt.generate_receipt_text`. -/
def Receipt.generate_receipt_text (r : Receipt) : String :=
  String.intercalate "\n" r.receipt_text_list

/-! ## `controllers/pos_controller.py` — `POSController`

The controller's mutable fields are a record; each operation returns the
updated record.  `generate_receipt` also returns the file writes it
performed (filename paired with content) so that "no file write" is a
provable statement; the possibility that the `open`/`write` raises is
modelled by the `writeOk` flag. -/

structure POSController where
  config : PriceConfig
  current_receipt : Receipt
  receipt_history : List Receipt
deriving DecidableEq

/-- Source `POSController.__init__`, with the persisted config file contents (if
any) and the creation instant passed explicitly. -/
def POSController.init (file : Option ConfigStore) (now : DateTime) : POSController :=
  ⟨PriceConfig.init file, Receipt.new now, []⟩

/-- Source `POSController.add_transaction`: construct, compute the subtotal
against the current config, append to the current receipt. -/
def POSController.add_transaction (s : POSController) (service_type : ServiceType)
    (pages : ℤ) (is_colored has_images : Bool) (now : DateTime) :
    Except Unit (POSController × Transaction) := do
  let t := Transaction.new service_type pages is_colored has_images now
  let (t, _) ← t.calculate_subtotal s.config
  pure ({ s with current_receipt := s.current_receipt.add_transaction t }, t)

/-- Source `POSController.remove_transaction`: delegates to
`Receipt.remove_transaction`, which never raises `IndexError` (it
validates the index and silently no-ops), so the `except IndexError`
branch that returns `False` is unreachable and the call returns `True`. -/
def POSController.remove_transaction (s : POSController) (index : ℤ) :
    POSController × Bool :=
  ({ s with current_receipt := s.current_receipt.remove_transaction index }, true)

/-- Source `POSController.clear_current_receipt`. -/
def POSController.clear_current_receipt (s : POSController) (now : DateTime) : POSController :=
  { s with current_receipt := Receipt.new now }

inductive GenError where
  | emptyReceipt
  | writeFailed
deriving DecidableEq

instance {ε α : Type} [DecidableEq ε] [DecidableEq α] : DecidableEq (Except ε α) := fun x y =>
  match x, y with
  | .ok a, .ok b =>
    if h : a = b then .isTrue (by rw [h])
    else .isFalse (by intro he; cases he; exact h rfl)
  | .error a, .error b =>
    if h : a = b then .isTrue (by rw [h])
    else .isFalse (by intro he; cases he; exact h rfl)
  | .ok _, .error _ => .isFalse (by intro h; cases h)
  | .error _, .ok _ => .isFalse (by intro h; cases h)

structure GenResult where
  state : POSController
  result : Except GenError String
  writes : List (String × String)
deriving DecidableEq

/-- Source `POSController.generate_receipt`: raise on an empty receipt; render
the text; write it to `receipts/<filename>`; only after a successful
write, append to the history and start a fresh receipt (created at the
export instant `now`). -/
def POSController.generate_receipt (s : POSController) (writeOk : Bool)
    (now : DateTime) : GenResult :=
  if s.current_receipt.transactions = [] then
    ⟨s, .error .emptyReceipt, []⟩
  else
    let receipt_content := s.current_receipt.generate_receipt_text
    let filename := "receipts/" ++ s.current_receipt.get_receipt_filename
    if writeOk then
      ⟨{ s with
          receipt_history := s.receipt_history ++ [s.current_receipt],
          current_receipt := Receipt.new now },
       .ok filename, [(filename, receipt_content)]⟩
    else ⟨s, .error .writeFailed, []⟩

/-- Source `POSController.update_pricing`: set all three rates, then persist the
full table (`save_config` serializes `config`); the serialized store is
returned alongside the new state. -/
def POSController.update_pricing (s : POSController) (service : String)
    (monochrome_price colored_price image_surcharge : ℚ) :
    POSController × ConfigStore :=
  let c1 := s.config.set_monochrome_price service monochrome_price
  let c2 := c1.set_colored_price service colored_price
  let c3 := c2.set_image_surcharge service image_surcharge
  ({ s with config := c3 }, c3.config)

/-- Source `POSController.recalculate_current_transactions`: recompute every
transaction's subtotal against the current config, then refresh the
receipt total. -/
def POSController.recalculate_current_transactions (s : POSController) :
    Except Unit POSController := do
  let ts ← s.current_receipt.transactions.mapM
    (fun t => (t.calculate_subtotal s.config).map Prod.fst)
  pure { s with current_receipt :=
    (Receipt.calculate_total { s.current_receipt with transactions := ts }).1 }

/-! ## Invariants and helper lemmas -/

/-- The receipt invariant: the cached total is the sum of the cached
subtotals. -/
def Receipt.invariant (r : Receipt) : Prop :=
  r.total = (r.transactions.map Transaction.subtotal).sum

instance (r : Receipt) : Decidable r.invariant := by
  unfold Receipt.invariant; infer_instance

/-- A receipt-level mutation: one `add_transaction` or one
`remove_transaction`. -/
inductive ROp where
  | add : Transaction → ROp
  | remove : ℤ → ROp

def Receipt.applyOp (r : Receipt) : ROp → Receipt
  | .add t => r.add_transaction t
  | .remove i => r.remove_transaction i

lemma invariant_calculate_total (r : Receipt) : (Receipt.calculate_total r).1.invariant := by
  simp [Receipt.calculate_total, Receipt.invariant]

lemma invariant_applyOp (r : Receipt) (op : ROp) (h : r.invariant) :
    (r.applyOp op).invariant := by
  cases op with
  | add t =>
    show (r.add_transaction t).invariant
    unfold Receipt.add_transaction
    exact invariant_calculate_total _
  | remove i =>
    show (r.remove_transaction i).invariant
    unfold Receipt.remove_transaction
    split
    · exact invariant_calculate_total _
    · exact h

lemma invariant_foldl (ops : List ROp) :
    ∀ r : Receipt, r.invariant → (ops.foldl Receipt.applyOp r).invariant := by
  induction ops with
  | nil => intro r h; exact h
  | cons op rest ih => intro r h; exact ih _ (invariant_applyOp r op h)

/-! ## Shared concrete fixtures -/

def ts0 : DateTime := ⟨2025, 3, 7, 14, 5, 9⟩

/-- A controller freshly started with no persisted config file. -/
def posEmpty : POSController := POSController.init none ts0

/-- The print transaction of the worked example, with its subtotal as
computed against the default table (`8.00 * 5 + 2.00 * 5`). -/
def tPrint50 : Transaction :=
  { Transaction.new .PRINT 5 true true ts0 with subtotal := 50 }

def tPhoto9 : Transaction :=
  { Transaction.new .PHOTOCOPY 3 false false ts0 with subtotal := 9 }

/-- A controller holding one consistent transaction. -/
def posOne : POSController :=
  ⟨PriceConfig.init none, ⟨[tPrint50], ts0, 50⟩, []⟩

def receiptTwo : Receipt :=
  ((Receipt.new ts0).add_transaction tPrint50).add_transaction tPhoto9

/-! ## The claims -/

/-- C1: for every service category, page count `pages ≥ 1`, and flag pair,
`calculate_subtotal` returns `base * pages` plus, when `has_images` is
set, `image_surcharge * pages`; the base is the colored rate when
`is_colored` and the monochrome rate otherwise, and the surcharge term
scales by the page count and does not depend on the color flag. -/
theorem C1_subtotal_formula (st : ServiceType) (pages : ℤ) (ic hi : Bool)
    (now : DateTime) (cfg : PriceConfig) (rm rc si : ℚ)
    (_hp : 1 ≤ pages)
    (hm : cfg.get_monochrome_price (toLowerStr st.value) = .ok rm)
    (hc : cfg.get_colored_price (toLowerStr st.value) = .ok rc)
    (hs : cfg.get_image_surcharge (toLowerStr st.value) = .ok si) :
    (Transaction.new st pages ic hi now).calculate_subtotal cfg =
      .ok ({ Transaction.new st pages ic hi now with
               subtotal := (if ic then rc else rm) * pages +
                 (if hi then si * pages else 0) },
           (if ic then rc else rm) * pages + (if hi then si * pages else 0)) := by
  cases ic <;> cases hi <;>
    simp [Transaction.calculate_subtotal, Transaction.new, hm, hc, hs,
      Except.bind, bind, pure, Except.pure]

unseal Rat.mul Rat.add Rat.sub Rat.inv in
theorem C1_witness :
    (1 : ℤ) ≤ 5 ∧
    (Transaction.new .PRINT 5 true true ts0).calculate_subtotal (PriceConfig.init none) =
      .ok ({ Transaction.new .PRINT 5 true true ts0 with
               subtotal := (if true then (8 : ℚ) else 5) * (5 : ℤ) +
                 (if true then (2 : ℚ) * (5 : ℤ) else 0) },
           (if true then (8 : ℚ) else 5) * (5 : ℤ) + (if true then (2 : ℚ) * (5 : ℤ) else 0)) :=
  ⟨by decide,
   C1_subtotal_formula .PRINT 5 true true ts0 (PriceConfig.init none) 5 8 2
     (by decide) (by decide) (by decide) (by decide)⟩

/-- C2 (amended): for every controller state and index outside
`[0, len)`, removing leaves the receipt (its transaction list and total)
unchanged, and for an index inside `[0, len)` the element is removed; but
the Orchestrator's `remove_transaction` reports `true` in both cases —
the `False` branch is unreachable because `Receipt.remove_transaction`
validates the index itself and never raises `IndexError`. -/
theorem C2_remove_reports_true (s : POSController) (index : ℤ) :
    (s.remove_transaction index).2 = true ∧
    (¬ (0 ≤ index ∧ index < (s.current_receipt.transactions.length : ℤ)) →
      (s.remove_transaction index).1 = s) ∧
    ((0 ≤ index ∧ index < (s.current_receipt.transactions.length : ℤ)) →
      (s.remove_transaction index).1.current_receipt.transactions =
        s.current_receipt.transactions.eraseIdx index.toNat) := by
  refine ⟨rfl, ?_, ?_⟩ <;> intro h <;>
    simp [POSController.remove_transaction, Receipt.remove_transaction, h,
      Receipt.calculate_total]

theorem C2_witness :
    ¬ (0 ≤ (5 : ℤ) ∧ (5 : ℤ) < (posEmpty.current_receipt.transactions.length : ℤ)) ∧
    (posEmpty.remove_transaction 5).1 = posEmpty :=
  ⟨by decide, (C2_remove_reports_true posEmpty 5).2.1 (by decide)⟩

/-- C2 counterexample: on an empty receipt the index `0` lies outside
`[0, 0)`, yet `remove_transaction` returns `true` — not `false` as the
claim states. -/
theorem C2_counterexample :
    ¬ (0 ≤ (0 : ℤ) ∧ (0 : ℤ) < (posEmpty.current_receipt.transactions.length : ℤ)) ∧
    (posEmpty.remove_transaction 0).2 = true := by
  exact ⟨by decide, rfl⟩

/-- C4: starting from a fresh receipt, after every sequence of
`add_transaction` / `remove_transaction` operations the invariant
`total = Σ subtotal` holds, and it also holds after every successful
`recalculate_current_transactions`. -/
theorem C4_total_invariant :
    (∀ (ops : List ROp) (now : DateTime),
        (ops.foldl Receipt.applyOp (Receipt.new now)).invariant) ∧
    (∀ s s' : POSController, s.recalculate_current_transactions = .ok s' →
        s'.current_receipt.invariant) := by
  constructor
  · intro ops now
    exact invariant_foldl ops _ (by simp [Receipt.new, Receipt.invariant])
  · intro s s' h
    unfold POSController.recalculate_current_transactions at h
    cases hm : s.current_receipt.transactions.mapM
        (fun t => (t.calculate_subtotal s.config).map Prod.fst) with
    | error e =>
      rw [hm] at h
      simp [Bind.bind, Except.bind] at h
    | ok ts =>
      rw [hm] at h
      simp only [Bind.bind, Except.bind, pure, Except.pure, Except.ok.injEq] at h
      rw [← h]
      exact invariant_calculate_total _

theorem C4_witness :
    posEmpty.recalculate_current_transactions = .ok posEmpty ∧
    posEmpty.current_receipt.invariant :=
  ⟨rfl, C4_total_invariant.2 posEmpty posEmpty rfl⟩

/-- C3: generating a receipt while the current receipt has no
transactions fails with the empty-receipt error, performs no file write,
and leaves the controller state (current receipt and history) exactly as
it was. -/
theorem C3_empty_receipt_fails (s : POSController) (writeOk : Bool) (now : DateTime)
    (h : s.current_receipt.transactions = []) :
    s.generate_receipt writeOk now = ⟨s, .error .emptyReceipt, []⟩ := by
  simp [POSController.generate_receipt, h]

theorem C3_witness :
    posEmpty.current_receipt.transactions = [] ∧
    posEmpty.generate_receipt true ts0 = ⟨posEmpty, .error .emptyReceipt, []⟩ :=
  ⟨rfl, C3_empty_receipt_fails posEmpty true ts0 rfl⟩

/-- C5: on a non-empty receipt, if the file write fails, the failing
`generate_receipt` call performs no state mutation: the history is not
appended, the current receipt is not replaced, and no write is recorded,
so the receipt stays available for retry. -/
theorem C5_failed_write_preserves_state (s : POSController) (now : DateTime)
    (h : s.current_receipt.transactions ≠ []) :
    s.generate_receipt false now = ⟨s, .error .writeFailed, []⟩ := by
  simp [POSController.generate_receipt, h]

unseal Rat.mul Rat.add Rat.sub Rat.inv in
theorem C5_witness :
    posOne.current_receipt.transactions ≠ [] ∧
    posOne.generate_receipt false ts0 = ⟨posOne, .error .writeFailed, []⟩ :=
  ⟨by decide, C5_failed_write_preserves_state posOne ts0 (by decide)⟩

/-! Association-list lemmas for the config-overlay semantics. -/

lemma find?_map_assocUpdate {β : Type} (l : List (String × β)) (k k' : String)
    (f : String × β → β) (h : k' ≠ k) :
    List.find? (fun p => p.1 = k') (l.map (fun p => if p.1 = k then (k, f p) else p)) =
    List.find? (fun p => p.1 = k') l := by
  induction l with
  | nil => rfl
  | cons q tl ih =>
    by_cases hq : q.1 = k
    · simp only [List.map_cons, if_pos hq]
      rw [List.find?_cons_of_neg _ (by simp [Ne.symm h]),
          List.find?_cons_of_neg _ (by simp [hq, Ne.symm h]), ih]
    · simp only [List.map_cons, if_neg hq]
      by_cases hk : q.1 = k'
      · rw [List.find?_cons_of_pos _ (by simp [hk]), List.find?_cons_of_pos _ (by simp [hk])]
      · rw [List.find?_cons_of_neg _ (by simp [hk]), List.find?_cons_of_neg _ (by simp [hk]), ih]

lemma find?_map_assocUpdate_self {β : Type} (l : List (String × β)) (k : String)
    (f : String × β → β) (q : String × β)
    (h : List.find? (fun p => p.1 = k) l = some q) :
    List.find? (fun p => p.1 = k) (l.map (fun p => if p.1 = k then (k, f p) else p)) =
    some (k, f q) := by
  induction l with
  | nil => cases h
  | cons a tl ih =>
    by_cases ha : a.1 = k
    · rw [List.find?_cons_of_pos _ (by simp [ha])] at h
      cases h
      simp only [List.map_cons, if_pos ha]
      rw [List.find?_cons_of_pos _ (by simp)]
    · rw [List.find?_cons_of_neg _ (by simp [ha])] at h
      simp only [List.map_cons, if_neg ha]
      rw [List.find?_cons_of_neg _ (by simp [ha]), ih h]

lemma find?_append_singleton_ne {β : Type} (l : List (String × β)) (k k' : String)
    (x : β) (h : k' ≠ k) :
    List.find? (fun p => p.1 = k') (l ++ [(k, x)]) =
    List.find? (fun p => p.1 = k') l := by
  rw [List.find?_append]
  have : List.find? (fun p => p.1 = k') [(k, x)] = none := by simp [Ne.symm h]
  rw [this]
  cases List.find? (fun p => p.1 = k') l <;> rfl

lemma lookupKey_setKey_ne (sec : Section) (k v k' : String) (h : k' ≠ k) :
    lookupKey (setKey sec k v) k' = lookupKey sec k' := by
  unfold setKey lookupKey
  split
  · rw [find?_map_assocUpdate sec k k' (fun _ => v) h]
  · rw [find?_append_singleton_ne sec k k' v h]

lemma lookupKey_overlaySection_missing (upd : Section) (key : String)
    (h : ∀ p ∈ upd, p.1 ≠ key) :
    ∀ old : Section, lookupKey (overlaySection old upd) key = lookupKey old key := by
  induction upd with
  | nil => intro old; rfl
  | cons p tl ih =>
    intro old
    have step : overlaySection old (p :: tl) = overlaySection (setKey old p.1 p.2) tl := rfl
    rw [step, ih (fun q hq => h q (by simp [hq])) _,
        lookupKey_setKey_ne old p.1 p.2 key (Ne.symm (h p (by simp)))]

lemma storeGetSection_setSectionMerge_ne (st : ConfigStore) (name : String)
    (nsec : Section) (sec : String) (h : sec ≠ name) :
    storeGetSection (setSectionMerge st name nsec) sec = storeGetSection st sec := by
  unfold setSectionMerge storeGetSection
  split
  · rw [find?_map_assocUpdate st name sec (fun p => overlaySection p.2 nsec) h]
  · rw [find?_append_singleton_ne st name sec nsec h]

lemma storeGetSection_setSectionMerge_self (st : ConfigStore) (name : String)
    (nsec : Section) :
    storeGetSection (setSectionMerge st name nsec) name =
      some ((storeGetSection st name).elim nsec (fun old => overlaySection old nsec)) := by
  unfold setSectionMerge storeGetSection
  split
  case isTrue hfind =>
    obtain ⟨q, hq⟩ := Option.isSome_iff_exists.mp hfind
    rw [find?_map_assocUpdate_self st name (fun p => overlaySection p.2 nsec) q hq, hq]
    rfl
  case isFalse hfind =>
    have hnone : List.find? (fun p => p.1 = name) st = none :=
      Option.not_isSome_iff_eq_none.mp hfind
    rw [List.find?_append, hnone]
    simp

lemma storeLookup_overlayStore_missing (f : ConfigStore) (sec key : String)
    (h : ∀ fsec, (sec, fsec) ∈ f → lookupKey fsec key = none) :
    ∀ st, storeLookup (overlayStore st f) sec key = storeLookup st sec key := by
  induction f with
  | nil => intro st; rfl
  | cons p rest ih =>
    intro st
    have step : overlayStore st (p :: rest) = overlayStore (setSectionMerge st p.1 p.2) rest := rfl
    rw [step, ih (fun fsec hf => h fsec (by simp [hf])) _]
    by_cases hp : p.1 = sec
    · have hmem : (sec, p.2) ∈ p :: rest := by
        have : p = (sec, p.2) := by rw [← hp]
        rw [← this]; simp
      have hnone : lookupKey p.2 key = none := h p.2 hmem
      have hkeys : ∀ q ∈ p.2, q.1 ≠ key := by
        intro q hq
        have := List.find?_eq_none.mp ((Option.map_eq_none).mp hnone) q hq
        simpa using this
      unfold storeLookup
      have hself := storeGetSection_setSectionMerge_self st p.1 p.2
      rw [hp] at hself
      rw [hp, hself]
      cases hst : storeGetSection st sec with
      | none => simp [hst, Option.elim, hnone]
      | some old => simp [hst, Option.elim, lookupKey_overlaySection_missing p.2 key hkeys old]
    · unfold storeLookup
      rw [storeGetSection_setSectionMerge_ne st p.1 p.2 sec (fun he => hp he.symm)]

/-- C6 (amended): loading a persisted configuration never aborts — the
raw strings are overlaid as-is — and a key the file does not set keeps
its seeded default; a persisted value that parses yields its parsed
rate; but a persisted price field that cannot be parsed as a decimal
makes the subsequent rate lookup raise (`ValueError` from `getfloat`)
rather than substituting the default for that field. -/
theorem C6_malformed_value_lookup :
    (∀ (f : ConfigStore) (service v : String) (q : ℚ),
        storeLookup (PriceConfig.init (some f)).config (toUpperStr service)
            "monochrome_price" = some v →
        parseDecimal v = some q →
        (PriceConfig.init (some f)).get_monochrome_price service = .ok q) ∧
    (∀ (f : ConfigStore) (service : String),
        storeLookup (PriceConfig.init (some f)).config (toUpperStr service)
            "monochrome_price" = none →
        (PriceConfig.init (some f)).get_monochrome_price service = .ok (1 / 10)) ∧
    (∀ (f : ConfigStore) (service v : String),
        storeLookup (PriceConfig.init (some f)).config (toUpperStr service)
            "monochrome_price" = some v →
        parseDecimal v = none →
        (PriceConfig.init (some f)).get_monochrome_price service = .error ()) ∧
    (∀ (f : ConfigStore) (sec key : String),
        (∀ fsec, (sec, fsec) ∈ f → lookupKey fsec key = none) →
        storeLookup (PriceConfig.init (some f)).config sec key =
          storeLookup load_default_config sec key) := by
  refine ⟨?_, ?_, ?_, ?_⟩
  · intro f service v q h1 h2
    simp [PriceConfig.get_monochrome_price, getfloat, h1, h2]
  · intro f service h1
    simp [PriceConfig.get_monochrome_price, getfloat, h1]
  · intro f service v h1 h2
    simp [PriceConfig.get_monochrome_price, getfloat, h1, h2]
  · intro f sec key h
    exact storeLookup_overlayStore_missing f sec key h load_default_config

/-- The persisted file used to refute C6: the PRINT monochrome price is
not a decimal. -/
def malformedStore : ConfigStore := [("PRINT", [("monochrome_price", "abc")])]

/-- C6 counterexample: after loading a file whose PRINT
`monochrome_price` is the unparseable string `"abc"`, the rate lookup
fails (`ValueError`) instead of returning the seeded default `5.00`:
`getfloat`'s fallback only covers a missing section/option, not a
malformed value. -/
theorem C6_counterexample :
    (PriceConfig.init (some malformedStore)).get_monochrome_price "print" = .error () ∧
    (PriceConfig.init (some malformedStore)).get_monochrome_price "print" ≠ .ok 5 := by
  exact ⟨by decide, by decide⟩

unseal Rat.mul Rat.add Rat.sub Rat.inv in
theorem C6_witness :
    (storeLookup (PriceConfig.init (some malformedStore)).config (toUpperStr "print")
        "monochrome_price" = some "abc" ∧
      parseDecimal "abc" = none ∧
      (PriceConfig.init (some malformedStore)).get_monochrome_price "print" = .error ()) ∧
    ((∀ fsec, ("SCAN", fsec) ∈ malformedStore → lookupKey fsec "colored_price" = none) ∧
      storeLookup (PriceConfig.init (some malformedStore)).config "SCAN" "colored_price" =
        storeLookup load_default_config "SCAN" "colored_price") :=
  ⟨⟨by decide, by decide,
    C6_malformed_value_lookup.2.2.1 malformedStore "print" "abc" (by decide) (by decide)⟩,
   ⟨by intro fsec hf; simp [malformedStore] at hf,
    C6_malformed_value_lookup.2.2.2 malformedStore "SCAN" "colored_price"
      (by intro fsec hf; simp [malformedStore] at hf)⟩⟩

unseal Rat.mul Rat.add Rat.sub Rat.inv in
/-- C7: with the default price table, adding a Print transaction of 5
colored pages with images yields subtotal `50.00` and receipt total
`50.00`; after `update_pricing("print", 6, 9, 3)` followed by
`recalculate_current_transactions()`, that transaction's subtotal and
the receipt total both become `60.00`. -/
theorem C7_end_to_end :
    ((POSController.init none ts0).add_transaction .PRINT 5 true true ts0).map
        (fun p => (p.2.subtotal, p.1.current_receipt.total)) = .ok (50, 50) ∧
    ((POSController.init none ts0).add_transaction .PRINT 5 true true ts0).bind
        (fun p => ((p.1.update_pricing "print" 6 9 3).1.recalculate_current_transactions).map
          (fun s => (s.current_receipt.transactions.map Transaction.subtotal,
                     s.current_receipt.total))) = .ok ([60], 60) := by
  constructor <;> decide

/-- C9: the export filename is exactly
`Receipt_MM-DD-YYYY_HH-MM-SS.txt`, a function of the receipt's creation
timestamp only: receipts created at the same instant get the same name,
and `generate_receipt`'s outcome (returned path and written files) does
not depend on the export instant. -/
theorem C9_filename_from_creation_time :
    (∀ r : Receipt, r.get_receipt_filename =
      "Receipt_" ++ (pad2 r.timestamp.month ++ "-" ++ pad2 r.timestamp.day ++ "-" ++
        toString r.timestamp.year ++ "_" ++ pad2 r.timestamp.hour ++ "-" ++
        pad2 r.timestamp.minute ++ "-" ++ pad2 r.timestamp.second) ++ ".txt") ∧
    (∀ r r' : Receipt, r.timestamp = r'.timestamp →
      r.get_receipt_filename = r'.get_receipt_filename) ∧
    (∀ (s : POSController) (ok : Bool) (now now' : DateTime),
      (s.generate_receipt ok now).result = (s.generate_receipt ok now').result ∧
      (s.generate_receipt ok now).writes = (s.generate_receipt ok now').writes) := by
  refine ⟨fun r => rfl, fun r r' h => ?_, fun s ok now now' => ?_⟩
  · simp [Receipt.get_receipt_filename, h]
  · unfold POSController.generate_receipt
    by_cases h : s.current_receipt.transactions = [] <;> cases ok <;> simp [h]

theorem C9_witness :
    receiptTwo.timestamp = (Receipt.new ts0).timestamp ∧
    receiptTwo.get_receipt_filename = (Receipt.new ts0).get_receipt_filename :=
  ⟨rfl, C9_filename_from_creation_time.2.1 receiptTwo (Receipt.new ts0) rfl⟩

/-- C10: on any state whose receipt satisfies the total invariant,
`add_transaction` appends the new transaction at the end of the list,
leaves every previously present transaction unchanged, and increases the
receipt total by exactly the new transaction's subtotal. -/
theorem C10_add_frame (s : POSController) (st : ServiceType) (pages : ℤ)
    (ic hi : Bool) (now : DateTime) (t' : Transaction) (v : ℚ)
    (hinv : s.current_receipt.total =
      (s.current_receipt.transactions.map Transaction.subtotal).sum)
    (h : (Transaction.new st pages ic hi now).calculate_subtotal s.config = .ok (t', v)) :
    s.add_transaction st pages ic hi now =
      .ok ({ s with current_receipt :=
        { s.current_receipt with
            transactions := s.current_receipt.transactions ++ [t'],
            total := s.current_receipt.total + t'.subtotal } }, t') := by
  simp only [POSController.add_transaction, h, Bind.bind, Except.bind, pure, Except.pure,
    Receipt.add_transaction, Receipt.calculate_total, List.map_append, List.sum_append,
    List.map_cons, List.map_nil, List.sum_cons, List.sum_nil, add_zero, hinv]

unseal Rat.mul Rat.add Rat.sub Rat.inv in
theorem C10_witness :
    posEmpty.current_receipt.total =
      (posEmpty.current_receipt.transactions.map Transaction.subtotal).sum ∧
    (Transaction.new .PRINT 5 true true ts0).calculate_subtotal posEmpty.config =
      .ok (tPrint50, 50) ∧
    posEmpty.add_transaction .PRINT 5 true true ts0 =
      .ok ({ posEmpty with current_receipt :=
        { posEmpty.current_receipt with
            transactions := posEmpty.current_receipt.transactions ++ [tPrint50],
            total := posEmpty.current_receipt.total + tPrint50.subtotal } }, tPrint50) :=
  ⟨rfl, by decide,
   C10_add_frame posEmpty .PRINT 5 true true ts0 tPrint50 50 rfl (by decide)⟩

unseal Rat.mul Rat.add Rat.sub Rat.inv in
/-- C8: the rendered receipt text is the newline-join of: a 50-character
`=` banner (lines 0 and 2 around the shop header), a header with the
date as `MM/DD/YYYY` (line 4) and a 12-hour time (line 5), the
transactions in insertion order numbered 1-based as
`N. <ServiceName> - <pages> pages - <Monochrome|Colored>[ (with images)]: ₱<subtotal to 2 decimals>`
(lines 10 .. 10+n-1), a 50-character separator, a total line formatted
to exactly 2 decimals, and a closing 50-character banner; in particular
for the two-transaction receipt the lines numbered `1.` and `2.` appear
in insertion order and the total line is the sum of the two subtotals to
2 decimals. -/
theorem C8_render_text (r : Receipt) :
    (r.generate_receipt_text = String.intercalate "\n" r.receipt_text_list) ∧
    r.receipt_text_list.length = r.transactions.length + 17 ∧
    r.receipt_text_list[0]? = some (String.mk (List.replicate 50 '=')) ∧
    r.receipt_text_list[4]? = some ("Date: " ++
      (pad2 r.timestamp.month ++ "/" ++ pad2 r.timestamp.day ++ "/" ++
        toString r.timestamp.year)) ∧
    r.receipt_text_list[5]? = some ("Time: " ++
      (pad2 (if r.timestamp.hour % 12 = 0 then 12 else r.timestamp.hour % 12) ++ ":" ++
        pad2 r.timestamp.minute ++ ":" ++ pad2 r.timestamp.second ++ " " ++
        (if r.timestamp.hour < 12 then "AM" else "PM"))) ∧
    (∀ (i : ℕ) (t : Transaction), r.transactions[i]? = some t →
      r.receipt_text_list[i + 10]? = some (toString (i + 1) ++ ". " ++
        (t.service_type.value ++ " - " ++ toString t.pages ++ " pages - " ++
          (if t.is_colored then "Colored" else "Monochrome") ++
          (if t.has_images then " (with images)" else "") ++ ": ₱" ++
          format2 t.subtotal))) ∧
    r.receipt_text_list[r.transactions.length + 11]? =
      some (String.mk (List.replicate 50 '-')) ∧
    r.receipt_text_list[r.transactions.length + 12]? =
      some ("TOTAL: ₱" ++ format2 r.total) ∧
    r.receipt_text_list[r.transactions.length + 16]? =
      some (String.mk (List.replicate 50 '=')) ∧
    receiptTwo.receipt_text_list[10]? =
      some "1. Print - 5 pages - Colored (with images): ₱50.00" ∧
    receiptTwo.receipt_text_list[11]? =
      some "2. Photocopy - 3 pages - Monochrome: ₱9.00" ∧
    receiptTwo.receipt_text_list[14]? =
      some ("TOTAL: ₱" ++ format2 (tPrint50.subtotal + tPhoto9.subtotal)) ∧
    format2 (tPrint50.subtotal + tPhoto9.subtotal) = "59.00" := by
  refine ⟨rfl, ?_, rfl, rfl, rfl, ?_, ?_, ?_, ?_, by decide, by decide, by decide, by decide⟩
  · simp [Receipt.receipt_text_list, List.enum_length]
  · intro i t ht
    have hi : i < r.transactions.length := by
      rcases List.getElem?_eq_some.mp ht with ⟨hlt, _⟩
      exact hlt
    simp only [Receipt.receipt_text_list, List.cons_append, List.nil_append,
      List.getElem?_cons_succ, Nat.add_zero]
    rw [List.getElem?_append]
    rw [if_pos (by simpa [List.enum_length] using hi)]
    simp [List.getElem?_map, List.getElem?_enum, ht, Transaction.to_string]
  · simp only [Receipt.receipt_text_list, List.cons_append, List.nil_append,
      List.getElem?_cons_succ, Nat.add_zero]
    rw [List.getElem?_append, if_neg (by simp [List.enum_length])]
    simp only [List.length_map, List.enum_length, Nat.add_sub_cancel_left]
    rfl
  · simp only [Receipt.receipt_text_list, List.cons_append, List.nil_append,
      List.getElem?_cons_succ, Nat.add_zero]
    rw [List.getElem?_append, if_neg (by simp [List.enum_length])]
    simp only [List.length_map, List.enum_length, Nat.add_sub_cancel_left]
    rfl
  · simp only [Receipt.receipt_text_list, List.cons_append, List.nil_append,
      List.getElem?_cons_succ, Nat.add_zero]
    rw [List.getElem?_append, if_neg (by simp [List.enum_length])]
    simp only [List.length_map, List.enum_length, Nat.add_sub_cancel_left]
    rfl

unseal Rat.mul Rat.add Rat.sub Rat.inv in
theorem C8_witness :
    receiptTwo.transactions[0]? = some tPrint50 ∧
    receiptTwo.receipt_text_list[0 + 10]? = some (toString (0 + 1) ++ ". " ++
      (tPrint50.service_type.value ++ " - " ++ toString tPrint50.pages ++ " pages - " ++
        (if tPrint50.is_colored then "Colored" else "Monochrome") ++
        (if tPrint50.has_images then " (with images)" else "") ++ ": ₱" ++
        format2 tPrint50.subtotal)) :=
  ⟨by decide, (C8_render_text receiptTwo).2.2.2.2.2.1 0 tPrint50 (by decide)⟩

end POS
